import Mathlib

/-!
Verification development for the cryptoSuiteKit suite-dispatch-and-validation
layer (`src/crypto/suites.ts`, `src/errors/KeyValidationError.ts`).

The elliptic-curve arithmetic itself lives in an external primitives library
(`@noble/curves`); following the primitive-provider contract of the spec, it is
modelled here as an abstract `PrimitiveProvider` record over abstract point
types. Everything the repository itself implements — format detection,
length/prefix validation, error classification, suite dispatch — is embedded
faithfully below. Hex strings stay `String`s, as in the source; fallible
operations return `Except ThrownError _`, where `ThrownError` separates the
repository's own `KeyValidationError` kind from errors that originate in the
primitive provider and propagate through unwrapped.
-/

set_option maxRecDepth 16000

namespace CryptoSuiteKit

/-- The JavaScript `String.prototype.startsWith` test: the first characters of
`s` coincide with `p`. (Executable embedding of the prefix test used by
`suites.ts`; Lean core's own `String.startsWith` does not reduce in the
kernel, so the list-level equivalent is used throughout.) -/
def strStartsWith (s p : String) : Bool :=
  s.toList.take p.toList.length == p.toList

/-- `SupportedCurve` from `suites.ts`: the union type of curve tags. -/
inductive SupportedCurve where
  | secp256k1
  | ed25519
deriving DecidableEq, Repr

/-- `SupportedScheme` from `suites.ts`: the union type of scheme tags. -/
inductive SupportedScheme where
  | ECDSA
  | Schnorr
  | EdDSA
deriving DecidableEq, Repr

/-- `PublicKeyFormat` from `suites.ts`: the union type of format tags. -/
inductive PublicKeyFormat where
  | compressed
  | uncompressed
  | schnorr
deriving DecidableEq, Repr

/-- The string rendering of a curve tag, as interpolated into error
messages by `getCryptoSuite`. -/
def curveTagString : SupportedCurve → String
  | .secp256k1 => "secp256k1"
  | .ed25519 => "ed25519"

/-- The string rendering of a scheme tag, as interpolated into error
messages by `getCryptoSuite`. -/
def schemeTagString : SupportedScheme → String
  | .ECDSA => "ECDSA"
  | .Schnorr => "Schnorr"
  | .EdDSA => "EdDSA"

/-- The kinds of values a suite operation can throw. `KeyValidationError`
(from `src/errors/KeyValidationError.ts`) is the single validation-error kind
owned by the repository, carrying its message. `providerError` is any error
thrown by the external primitives library and propagated through the suite
code unmodified (the suite code never constructs or catches one of these,
except where it explicitly try/catches, which is modelled at that site). -/
inductive ThrownError where
  | KeyValidationError : String → ThrownError
  | providerError : String → ThrownError
deriving DecidableEq, Repr

/-- The primitive-provider contract (spec §6): point decoding/serialization
and raw sign/verify for each (curve, scheme), abstract over the point types.
`secpPointFromHex` models `secp256k1.Point.fromHex` (throws on a byte string
that is not a valid, canonically encoded curve point); `secpPointToHex pt c`
models `bytesToHex(pt.toBytes(c))` with `c` the compression flag. Likewise
`edPointFromHex` models `ed25519.Point.fromHex`. Sign/verify carry the
provider's own failure channel as `Except String _`. -/
structure PrimitiveProvider (SecpPoint EdPoint : Type) where
  secpPointFromHex : String → Except String SecpPoint
  secpPointToHex : SecpPoint → Bool → String
  secpSign : String → String → Except String String
  secpVerify : String → String → String → Except String Bool
  schnorrSign : String → String → Except String String
  schnorrVerify : String → String → String → Except String Bool
  edPointFromHex : String → Except String EdPoint
  edSign : String → String → Except String String
  edVerify : String → String → String → Except String Bool

/-- `ICryptoSuite` from `suites.ts`: the uniform interface of a suite. -/
structure ICryptoSuite where
  validateAndNormalizePublicKey :
    String → Option PublicKeyFormat → Except ThrownError (String × PublicKeyFormat)
  sign : String → String → Except ThrownError String
  verify : String → String → String → Except ThrownError Bool

/-- The input-format detection of `EcdsaSecp256k1Suite.validateAndNormalizePublicKey`
(suites.ts lines 53-64): 66 hex chars with leading `02`/`03` is compressed;
128 hex chars, or 130 hex chars with leading `04`, is uncompressed; anything
else leaves the format undetermined (`none`). -/
def ecdsaInputFormat (pubKeyHex : String) : Option PublicKeyFormat :=
  if pubKeyHex.length = 66 ∧
      (strStartsWith pubKeyHex "02" = true ∨ strStartsWith pubKeyHex "03" = true) then
    some PublicKeyFormat.compressed
  else if pubKeyHex.length = 128 ∨
      (pubKeyHex.length = 130 ∧ strStartsWith pubKeyHex "04" = true) then
    some PublicKeyFormat.uncompressed
  else
    none

/-- The argument handed to `secp256k1.Point.fromHex` (suites.ts lines 75-79):
a 128-hex-char uncompressed body gets `04` prepended; everything else is
passed through unchanged. -/
def ecdsaPointInputHex (pubKeyHex : String) (inputFormat : PublicKeyFormat) : String :=
  if inputFormat = PublicKeyFormat.uncompressed ∧ pubKeyHex.length = 128 then
    "04" ++ pubKeyHex
  else
    pubKeyHex

/-- `EcdsaSecp256k1Suite` from `suites.ts` (lines 48-92), over a primitive
provider. Note that the `Point.fromHex` call is not wrapped in a try/catch:
a decode failure propagates as the provider's own error. -/
def EcdsaSecp256k1Suite {S E : Type} (P : PrimitiveProvider S E) : ICryptoSuite where
  validateAndNormalizePublicKey pubKeyHex options :=
    match ecdsaInputFormat pubKeyHex with
    | none =>
        Except.error
          (ThrownError.KeyValidationError
            "Invalid ECDSA public key format. Expected 33 or 65 bytes.")
    | some inputFormat =>
        let desiredFormat := options.getD PublicKeyFormat.compressed
        let shouldCompress := decide (desiredFormat = PublicKeyFormat.compressed)
        match P.secpPointFromHex (ecdsaPointInputHex pubKeyHex inputFormat) with
        | Except.error e => Except.error (ThrownError.providerError e)
        | Except.ok point =>
            Except.ok (P.secpPointToHex point shouldCompress, desiredFormat)
  sign privateKey messageHash :=
    (P.secpSign messageHash privateKey).mapError ThrownError.providerError
  verify signature messageHash publicKey :=
    (P.secpVerify signature messageHash publicKey).mapError ThrownError.providerError

/-- `SchnorrSecp256k1Suite` from `suites.ts` (lines 94-110): validation is a
pure length check on the hex string; the output-format option is ignored. -/
def SchnorrSecp256k1Suite {S E : Type} (P : PrimitiveProvider S E) : ICryptoSuite where
  validateAndNormalizePublicKey pubKeyHex _options :=
    if pubKeyHex.length ≠ 64 then
      Except.error
        (ThrownError.KeyValidationError
          ("Invalid Schnorr (BIP340) public key length. Expected 32 bytes (64 hex chars), got "
            ++ toString pubKeyHex.length ++ "."))
    else
      Except.ok (pubKeyHex, PublicKeyFormat.schnorr)
  sign privateKey messageHash :=
    (P.schnorrSign messageHash privateKey).mapError ThrownError.providerError
  verify signature messageHash publicKey :=
    (P.schnorrVerify signature messageHash publicKey).mapError ThrownError.providerError

/-- `EddsaEd25519Suite` from `suites.ts` (lines 112-136): a length check, then
`ed25519.Point.fromHex` inside a try/catch that rethrows a `KeyValidationError`;
the output-format option is ignored and the key is returned unchanged. -/
def EddsaEd25519Suite {S E : Type} (P : PrimitiveProvider S E) : ICryptoSuite where
  validateAndNormalizePublicKey pubKeyHex _options :=
    if pubKeyHex.length ≠ 64 then
      Except.error
        (ThrownError.KeyValidationError
          ("Invalid EdDSA (Ed25519) public key length. Expected 32 bytes (64 hex chars), got "
            ++ toString pubKeyHex.length ++ "."))
    else
      match P.edPointFromHex pubKeyHex with
      | Except.error _ =>
          Except.error
            (ThrownError.KeyValidationError
              "Invalid Ed25519 public key. Not a valid point on the curve.")
      | Except.ok _ => Except.ok (pubKeyHex, PublicKeyFormat.compressed)
  sign privateKey messageHash :=
    (P.edSign messageHash privateKey).mapError ThrownError.providerError
  verify signature messageHash publicKey :=
    (P.edVerify signature messageHash publicKey).mapError ThrownError.providerError

/-- `getCryptoSuite` from `suites.ts` (lines 160-171): the fixed registry
lookup over the enumerated (curve, scheme) pair, failing with a
`KeyValidationError` that names the requested scheme and curve. -/
def getCryptoSuite {S E : Type} (P : PrimitiveProvider S E)
    (curve : SupportedCurve) (scheme : SupportedScheme) : Except ThrownError ICryptoSuite :=
  match curve, scheme with
  | SupportedCurve.secp256k1, SupportedScheme.ECDSA => Except.ok (EcdsaSecp256k1Suite P)
  | SupportedCurve.secp256k1, SupportedScheme.Schnorr => Except.ok (SchnorrSecp256k1Suite P)
  | SupportedCurve.ed25519, SupportedScheme.EdDSA => Except.ok (EddsaEd25519Suite P)
  | c, s =>
      Except.error
        (ThrownError.KeyValidationError
          ("The scheme \x27" ++ schemeTagString s ++ "\x27 is not supported for the curve \x27"
            ++ curveTagString c ++ "\x27."))

/-! ### Concrete material for witnesses

A small concrete primitive provider over a one-point curve model, used only
to instantiate the provider-parametric theorems at concrete inputs. Its
encodings have the shapes the secp256k1 provider guarantees: a 66-hex-char
`02…` compressed form and a 130-hex-char `04…` uncompressed form of the same
point, with decoding inverse to encoding and everything else rejected. -/

/-- Sixty-four `0` characters: the x/y coordinate filler of the toy encodings. -/
def zeros64 : String := "0000000000000000000000000000000000000000000000000000000000000000"

/-- Sixty-four `f` characters: body of a well-formed-looking key the toy
provider rejects at point decoding. -/
def fs64 : String := "ffffffffffffffffffffffffffffffffffffffffffffffffffffffffffffffff"

/-- Sixty-four `z` characters: a 64-char string that is not hexadecimal. -/
def zs64 : String := "zzzzzzzzzzzzzzzzzzzzzzzzzzzzzzzzzzzzzzzzzzzzzzzzzzzzzzzzzzzzzzzz"

/-- The toy provider's compressed encoding of its single point: 66 hex chars
with leading `02`. -/
def c66 : String := "02" ++ zeros64

/-- The 128-hex-char uncompressed body (no `04` lead byte). -/
def body128 : String := zeros64 ++ zeros64

/-- The toy provider's uncompressed encoding: 130 hex chars with leading `04`. -/
def u130 : String := "04" ++ body128

/-- A 66-hex-char key of valid compressed shape (`02` + 64 hex chars) that the
toy provider — like the real secp256k1 provider on `02ff…ff`, whose x exceeds
the field prime — rejects at point decoding. -/
def badPointKey : String := "02" ++ fs64

/-- The concrete toy provider over the one-point types `Unit`/`Unit`. -/
def toyProvider : PrimitiveProvider Unit Unit where
  secpPointFromHex s := if s = c66 ∨ s = u130 then Except.ok () else Except.error "bad point"
  secpPointToHex _ c := if c then c66 else u130
  secpSign _ _ := Except.ok zeros64
  secpVerify _ _ _ := Except.ok false
  schnorrSign _ _ := Except.error "boom"
  schnorrVerify _ _ _ := Except.error "boom"
  edPointFromHex s := if s = zeros64 then Except.ok () else Except.error "bad point"
  edSign _ _ := Except.ok zeros64
  edVerify _ _ _ := Except.ok true

/-! ### Helper lemmas -/

/-- The format detector reports `compressed` exactly for a 66-hex-char input
with leading `02` or `03`. -/
lemma ecdsaInputFormat_eq_compressed_iff (s : String) :
    ecdsaInputFormat s = some PublicKeyFormat.compressed ↔
      s.length = 66 ∧ (strStartsWith s "02" = true ∨ strStartsWith s "03" = true) := by
  unfold ecdsaInputFormat
  by_cases h1 : s.length = 66 ∧ (strStartsWith s "02" = true ∨ strStartsWith s "03" = true)
  · simp [h1]
  · by_cases h2 : s.length = 128 ∨ (s.length = 130 ∧ strStartsWith s "04" = true) <;>
      simp [h1, h2]

/-- The format detector reports `uncompressed` exactly for a 128-hex-char
input, or a 130-hex-char input with leading `04`. -/
lemma ecdsaInputFormat_eq_uncompressed_iff (s : String) :
    ecdsaInputFormat s = some PublicKeyFormat.uncompressed ↔
      (s.length = 128 ∨ (s.length = 130 ∧ strStartsWith s "04" = true)) := by
  unfold ecdsaInputFormat
  by_cases h1 : s.length = 66 ∧ (strStartsWith s "02" = true ∨ strStartsWith s "03" = true)
  · have h66 := h1.1
    rw [if_pos h1]
    constructor
    · intro hc
      exact absurd hc (by simp)
    · rintro (h128 | ⟨h130, -⟩) <;> omega
  · rw [if_neg h1]
    by_cases h2 : s.length = 128 ∨ (s.length = 130 ∧ strStartsWith s "04" = true) <;>
      simp [h2]

/-- The format detector reports nothing exactly when neither the compressed
nor one of the uncompressed shapes matches. -/
lemma ecdsaInputFormat_eq_none_iff (s : String) :
    ecdsaInputFormat s = none ↔
      ¬ ((s.length = 66 ∧ (strStartsWith s "02" = true ∨ strStartsWith s "03" = true)) ∨
         s.length = 128 ∨ (s.length = 130 ∧ strStartsWith s "04" = true)) := by
  unfold ecdsaInputFormat
  by_cases h1 : s.length = 66 ∧ (strStartsWith s "02" = true ∨ strStartsWith s "03" = true)
  · simp [h1]
  · by_cases h2 : s.length = 128 ∨ (s.length = 130 ∧ strStartsWith s "04" = true) <;>
      simp [h1, h2]

/-- The ECDSA-suite validator yields the fixed-format validation error exactly
when the format detector fails. -/
lemma ecdsa_validate_format_error_iff {S E : Type} (P : PrimitiveProvider S E)
    (s : String) (o : Option PublicKeyFormat) :
    (EcdsaSecp256k1Suite P).validateAndNormalizePublicKey s o =
        Except.error (ThrownError.KeyValidationError
          "Invalid ECDSA public key format. Expected 33 or 65 bytes.") ↔
      ecdsaInputFormat s = none := by
  cases hf : ecdsaInputFormat s with
  | none => simp [EcdsaSecp256k1Suite, hf]
  | some f =>
      cases hp : P.secpPointFromHex (ecdsaPointInputHex s f) <;>
        simp [EcdsaSecp256k1Suite, hf, hp]

/-! ### Claim theorems -/

/-- C1: the secp256k1/ECDSA suite accepts exactly a 66-hex-char key with
leading `02`/`03` (classified compressed), a 130-hex-char key with leading
`04` (classified uncompressed), and a 128-hex-char key (classified as an
uncompressed body and reconstructed by prepending `04` before point parsing);
every other length/prefix combination fails with the validation error citing
the expected 33-or-65-byte format. -/
theorem ecdsa_validate_accepted_formats {S E : Type} (P : PrimitiveProvider S E)
    (s : String) (o : Option PublicKeyFormat) :
    (ecdsaInputFormat s = some PublicKeyFormat.compressed ↔
      s.length = 66 ∧ (strStartsWith s "02" = true ∨ strStartsWith s "03" = true)) ∧
    (ecdsaInputFormat s = some PublicKeyFormat.uncompressed ↔
      (s.length = 128 ∨ (s.length = 130 ∧ strStartsWith s "04" = true))) ∧
    ((EcdsaSecp256k1Suite P).validateAndNormalizePublicKey s o =
        Except.error (ThrownError.KeyValidationError
          "Invalid ECDSA public key format. Expected 33 or 65 bytes.") ↔
      ¬ ((s.length = 66 ∧ (strStartsWith s "02" = true ∨ strStartsWith s "03" = true)) ∨
         s.length = 128 ∨ (s.length = 130 ∧ strStartsWith s "04" = true))) ∧
    (s.length = 128 → ecdsaPointInputHex s PublicKeyFormat.uncompressed = "04" ++ s) := by
  refine ⟨ecdsaInputFormat_eq_compressed_iff s, ecdsaInputFormat_eq_uncompressed_iff s,
    (ecdsa_validate_format_error_iff P s o).trans (ecdsaInputFormat_eq_none_iff s), ?_⟩
  intro h
  simp [ecdsaPointInputHex, h]

/-- Witness for C1 at a concrete 128-hex-char input: the bare uncompressed
body is classified uncompressed and handed to point parsing with `04`
prepended. -/
theorem ecdsa_validate_accepted_formats_witness :
    ecdsaInputFormat body128 = some PublicKeyFormat.uncompressed ∧
      ecdsaPointInputHex body128 PublicKeyFormat.uncompressed = "04" ++ body128 :=
  ⟨((ecdsa_validate_accepted_formats toyProvider body128 none).2.1).mpr (Or.inl (by decide)),
   (ecdsa_validate_accepted_formats toyProvider body128 none).2.2.2 (by decide)⟩

/-- C5: for the ed25519/EdDSA suite, an input whose length is not 64 fails
with the length validation error; a 64-char input the provider cannot decode
as a curve point fails with the "not a valid point on the curve" validation
error; a 64-char input that decodes succeeds, returning the input unchanged
with format tag `compressed`; and the output-format option is ignored. -/
theorem eddsa_validate_behavior {S E : Type} (P : PrimitiveProvider S E)
    (s : String) (o : Option PublicKeyFormat) :
    (s.length ≠ 64 →
      (EddsaEd25519Suite P).validateAndNormalizePublicKey s o =
        Except.error (ThrownError.KeyValidationError
          ("Invalid EdDSA (Ed25519) public key length. Expected 32 bytes (64 hex chars), got "
            ++ toString s.length ++ "."))) ∧
    (s.length = 64 → ∀ e, P.edPointFromHex s = Except.error e →
      (EddsaEd25519Suite P).validateAndNormalizePublicKey s o =
        Except.error (ThrownError.KeyValidationError
          "Invalid Ed25519 public key. Not a valid point on the curve.")) ∧
    (s.length = 64 → ∀ pt, P.edPointFromHex s = Except.ok pt →
      (EddsaEd25519Suite P).validateAndNormalizePublicKey s o =
        Except.ok (s, PublicKeyFormat.compressed)) ∧
    (EddsaEd25519Suite P).validateAndNormalizePublicKey s o =
      (EddsaEd25519Suite P).validateAndNormalizePublicKey s none := by
  refine ⟨?_, ?_, ?_, rfl⟩
  · intro h
    simp [EddsaEd25519Suite, h]
  · intro h e hp
    simp [EddsaEd25519Suite, h, hp]
  · intro h pt hp
    simp [EddsaEd25519Suite, h, hp]

/-- Witness for C5 at concrete inputs against the toy provider: a 66-char key
fails the length check, an undecodable 64-char key fails the point check, and
the decodable key `zeros64` is returned unchanged with tag `compressed`. -/
theorem eddsa_validate_behavior_witness :
    (EddsaEd25519Suite toyProvider).validateAndNormalizePublicKey c66 none =
      Except.error (ThrownError.KeyValidationError
        "Invalid EdDSA (Ed25519) public key length. Expected 32 bytes (64 hex chars), got 66.") ∧
    (EddsaEd25519Suite toyProvider).validateAndNormalizePublicKey zs64 none =
      Except.error (ThrownError.KeyValidationError
        "Invalid Ed25519 public key. Not a valid point on the curve.") ∧
    (EddsaEd25519Suite toyProvider).validateAndNormalizePublicKey zeros64 none =
      Except.ok (zeros64, PublicKeyFormat.compressed) :=
  ⟨(eddsa_validate_behavior toyProvider c66 none).1 (by decide),
   (eddsa_validate_behavior toyProvider zs64 none).2.1 (by decide) "bad point" rfl,
   (eddsa_validate_behavior toyProvider zeros64 none).2.2.1 (by decide) () rfl⟩

/-- C4: for the secp256k1/Schnorr suite, `validateAndNormalizePublicKey` fails
with a validation error reporting expected versus actual hex-character count
exactly when the input's length is not 64, and succeeds — returning the input
unchanged with format tag `schnorr` — exactly when the length is 64 (no
curve-point validation is involved: the outcome is fully determined by the
length test alone, for every provider). -/
theorem schnorr_validate_length_only {S E : Type} (P : PrimitiveProvider S E)
    (s : String) (o : Option PublicKeyFormat) :
    ((SchnorrSecp256k1Suite P).validateAndNormalizePublicKey s o =
        Except.error (ThrownError.KeyValidationError
          ("Invalid Schnorr (BIP340) public key length. Expected 32 bytes (64 hex chars), got "
            ++ toString s.length ++ ".")) ↔ s.length ≠ 64) ∧
    ((SchnorrSecp256k1Suite P).validateAndNormalizePublicKey s o =
        Except.ok (s, PublicKeyFormat.schnorr) ↔ s.length = 64) := by
  by_cases h : s.length = 64 <;> simp [SchnorrSecp256k1Suite, h]

/-- C9: the secp256k1/Schnorr suite's validation checks only the string
length: every string of exactly 64 characters is accepted and returned
unchanged with format tag `schnorr`, whether or not it is hexadecimal. -/
theorem schnorr_validate_accepts_any_64_char_string {S E : Type}
    (P : PrimitiveProvider S E) (s : String) (o : Option PublicKeyFormat)
    (h : s.length = 64) :
    (SchnorrSecp256k1Suite P).validateAndNormalizePublicKey s o =
      Except.ok (s, PublicKeyFormat.schnorr) := by
  simp [SchnorrSecp256k1Suite, h]

/-- Witness for C9 at a concrete non-hexadecimal 64-character input: sixty-four
`z` characters are accepted unchanged. -/
theorem schnorr_validate_accepts_any_64_char_string_witness :
    zs64.length = 64 ∧
      (SchnorrSecp256k1Suite toyProvider).validateAndNormalizePublicKey zs64 none =
        Except.ok (zs64, PublicKeyFormat.schnorr) :=
  ⟨by decide, schnorr_validate_accepts_any_64_char_string toyProvider zs64 none (by decide)⟩

/-- The set of (curve, scheme) pairs the registry maps, as the claim lists
them: (secp256k1, ECDSA), (secp256k1, Schnorr) and (ed25519, EdDSA). -/
def validSuitePair (curve : SupportedCurve) (scheme : SupportedScheme) : Prop :=
  (curve = SupportedCurve.secp256k1 ∧ scheme = SupportedScheme.ECDSA) ∨
  (curve = SupportedCurve.secp256k1 ∧ scheme = SupportedScheme.Schnorr) ∨
  (curve = SupportedCurve.ed25519 ∧ scheme = SupportedScheme.EdDSA)

/-- C3: `getCryptoSuite` returns a suite exactly for the three valid
(curve, scheme) pairs, and for every other pair fails with a validation error
whose message names both the requested scheme and the requested curve. -/
theorem getCryptoSuite_ok_iff_valid_pair {S E : Type} (P : PrimitiveProvider S E)
    (curve : SupportedCurve) (scheme : SupportedScheme) :
    ((∃ suite, getCryptoSuite P curve scheme = Except.ok suite) ↔
      validSuitePair curve scheme) ∧
    (getCryptoSuite P curve scheme =
        Except.error (ThrownError.KeyValidationError
          ("The scheme \x27" ++ schemeTagString scheme
            ++ "\x27 is not supported for the curve \x27" ++ curveTagString curve ++ "\x27."))
      ↔ ¬ validSuitePair curve scheme) := by
  cases curve <;> cases scheme <;>
    simp [getCryptoSuite, validSuitePair, schemeTagString, curveTagString]

/-- C8: for every suite, both `sign` and `verify` merely delegate to the
primitive provider. A signature (for `sign`) or boolean verdict (for
`verify` — in particular `false` for a well-formed but non-matching
signature) coming back from the provider is returned as-is; a provider
failure during either operation (e.g. a malformed private key handed to
`sign`, or malformed signature bytes handed to `verify`) propagates carrying
exactly the provider's own error; and neither operation ever yields the
repository-owned validation-error kind. -/
theorem sign_verify_delegate_without_reclassifying {S E : Type}
    (P : PrimitiveProvider S E) (prv dg sig msg pk : String) :
    ((∀ x, (EcdsaSecp256k1Suite P).sign prv dg = Except.ok x ↔
        P.secpSign dg prv = Except.ok x) ∧
      (∀ e, (EcdsaSecp256k1Suite P).sign prv dg =
          Except.error (ThrownError.providerError e) ↔
        P.secpSign dg prv = Except.error e) ∧
      (∀ m, (EcdsaSecp256k1Suite P).sign prv dg ≠
        Except.error (ThrownError.KeyValidationError m)) ∧
      (∀ b, (EcdsaSecp256k1Suite P).verify sig msg pk = Except.ok b ↔
        P.secpVerify sig msg pk = Except.ok b) ∧
      (∀ e, (EcdsaSecp256k1Suite P).verify sig msg pk =
          Except.error (ThrownError.providerError e) ↔
        P.secpVerify sig msg pk = Except.error e) ∧
      (∀ m, (EcdsaSecp256k1Suite P).verify sig msg pk ≠
        Except.error (ThrownError.KeyValidationError m))) ∧
    ((∀ x, (SchnorrSecp256k1Suite P).sign prv dg = Except.ok x ↔
        P.schnorrSign dg prv = Except.ok x) ∧
      (∀ e, (SchnorrSecp256k1Suite P).sign prv dg =
          Except.error (ThrownError.providerError e) ↔
        P.schnorrSign dg prv = Except.error e) ∧
      (∀ m, (SchnorrSecp256k1Suite P).sign prv dg ≠
        Except.error (ThrownError.KeyValidationError m)) ∧
      (∀ b, (SchnorrSecp256k1Suite P).verify sig msg pk = Except.ok b ↔
        P.schnorrVerify sig msg pk = Except.ok b) ∧
      (∀ e, (SchnorrSecp256k1Suite P).verify sig msg pk =
          Except.error (ThrownError.providerError e) ↔
        P.schnorrVerify sig msg pk = Except.error e) ∧
      (∀ m, (SchnorrSecp256k1Suite P).verify sig msg pk ≠
        Except.error (ThrownError.KeyValidationError m))) ∧
    ((∀ x, (EddsaEd25519Suite P).sign prv dg = Except.ok x ↔
        P.edSign dg prv = Except.ok x) ∧
      (∀ e, (EddsaEd25519Suite P).sign prv dg =
          Except.error (ThrownError.providerError e) ↔
        P.edSign dg prv = Except.error e) ∧
      (∀ m, (EddsaEd25519Suite P).sign prv dg ≠
        Except.error (ThrownError.KeyValidationError m)) ∧
      (∀ b, (EddsaEd25519Suite P).verify sig msg pk = Except.ok b ↔
        P.edVerify sig msg pk = Except.ok b) ∧
      (∀ e, (EddsaEd25519Suite P).verify sig msg pk =
          Except.error (ThrownError.providerError e) ↔
        P.edVerify sig msg pk = Except.error e) ∧
      (∀ m, (EddsaEd25519Suite P).verify sig msg pk ≠
        Except.error (ThrownError.KeyValidationError m))) := by
  refine ⟨⟨?_, ?_, ?_, ?_, ?_, ?_⟩, ⟨?_, ?_, ?_, ?_, ?_, ?_⟩,
    ⟨?_, ?_, ?_, ?_, ?_, ?_⟩⟩ <;> intro x
  case refine_1 | refine_2 | refine_3 =>
    cases hv : P.secpSign dg prv <;>
      simp [EcdsaSecp256k1Suite, Except.mapError, hv]
  case refine_4 | refine_5 | refine_6 =>
    cases hv : P.secpVerify sig msg pk <;>
      simp [EcdsaSecp256k1Suite, Except.mapError, hv]
  case refine_7 | refine_8 | refine_9 =>
    cases hv : P.schnorrSign dg prv <;>
      simp [SchnorrSecp256k1Suite, Except.mapError, hv]
  case refine_10 | refine_11 | refine_12 =>
    cases hv : P.schnorrVerify sig msg pk <;>
      simp [SchnorrSecp256k1Suite, Except.mapError, hv]
  case refine_13 | refine_14 | refine_15 =>
    cases hv : P.edSign dg prv <;>
      simp [EddsaEd25519Suite, Except.mapError, hv]
  case refine_16 | refine_17 | refine_18 =>
    cases hv : P.edVerify sig msg pk <;>
      simp [EddsaEd25519Suite, Except.mapError, hv]

/-- Witness for C8 at the concrete toy provider: ECDSA `sign` returns the
provider's signature, the Schnorr suite propagates the provider's own `sign`
failure (a sign-time provider error reaching the caller unreclassified),
Ed25519 `sign` returns the provider's signature; ECDSA `verify` returns the
provider's `false` verdict (well-formed but non-matching signature, no error
raised), the Schnorr suite propagates the provider's `verify` failure, and
Ed25519 `verify` returns the provider's `true` verdict. -/
theorem sign_verify_delegate_without_reclassifying_witness :
    (EcdsaSecp256k1Suite toyProvider).sign zeros64 zeros64 = Except.ok zeros64 ∧
    (SchnorrSecp256k1Suite toyProvider).sign zeros64 zeros64 =
      Except.error (ThrownError.providerError "boom") ∧
    (EddsaEd25519Suite toyProvider).sign zeros64 zeros64 = Except.ok zeros64 ∧
    (EcdsaSecp256k1Suite toyProvider).verify zeros64 zeros64 c66 = Except.ok false ∧
    (SchnorrSecp256k1Suite toyProvider).verify zeros64 zeros64 c66 =
      Except.error (ThrownError.providerError "boom") ∧
    (EddsaEd25519Suite toyProvider).verify zeros64 zeros64 c66 = Except.ok true := by
  obtain ⟨⟨es1, es2, es3, ev1, ev2, ev3⟩, ⟨ss1, ss2, ss3, sv1, sv2, sv3⟩,
      ⟨ds1, ds2, ds3, dv1, dv2, dv3⟩⟩ :=
    sign_verify_delegate_without_reclassifying toyProvider zeros64 zeros64 zeros64 zeros64 c66
  exact ⟨(es1 zeros64).mpr rfl, (ss2 "boom").mpr rfl, (ds1 zeros64).mpr rfl,
    (ev1 false).mpr rfl, (sv2 "boom").mpr rfl, (dv1 true).mpr rfl⟩

/-- C6: round-trip on the secp256k1/ECDSA suite. For a point `pt` whose
compressed serialization is the valid compressed key `s` (66 hex chars,
leading `02`/`03`, decoding back to `pt`) and whose uncompressed serialization
`u` has the provider-guaranteed shape (130 hex chars, leading `04`, decoding
back to `pt`), normalizing `s` with output format `uncompressed` yields `u`,
and normalizing `u` back with output format `compressed` yields the original
`s`. -/
theorem ecdsa_normalize_round_trip {S E : Type} (P : PrimitiveProvider S E)
    (pt : S) (s u : String)
    (hs : P.secpPointToHex pt true = s)
    (hslen : s.length = 66)
    (hspre2 : strStartsWith s "02" = true ∨ strStartsWith s "03" = true)
    (hsdec : P.secpPointFromHex s = Except.ok pt)
    (hu : P.secpPointToHex pt false = u)
    (hulen : u.length = 130)
    (hupre4 : strStartsWith u "04" = true)
    (hudec : P.secpPointFromHex u = Except.ok pt) :
    (EcdsaSecp256k1Suite P).validateAndNormalizePublicKey s
        (some PublicKeyFormat.uncompressed) = Except.ok (u, PublicKeyFormat.uncompressed) ∧
    (EcdsaSecp256k1Suite P).validateAndNormalizePublicKey u
        (some PublicKeyFormat.compressed) = Except.ok (s, PublicKeyFormat.compressed) := by
  have hfmts : ecdsaInputFormat s = some PublicKeyFormat.compressed :=
    (ecdsaInputFormat_eq_compressed_iff s).mpr ⟨hslen, hspre2⟩
  have hfmtu : ecdsaInputFormat u = some PublicKeyFormat.uncompressed :=
    (ecdsaInputFormat_eq_uncompressed_iff u).mpr (Or.inr ⟨hulen, hupre4⟩)
  have hins : ecdsaPointInputHex s PublicKeyFormat.compressed = s := by
    unfold ecdsaPointInputHex
    rw [if_neg]
    rintro ⟨hcu, -⟩
    exact absurd hcu (by decide)
  have hinu : ecdsaPointInputHex u PublicKeyFormat.uncompressed = u := by
    unfold ecdsaPointInputHex
    rw [if_neg]
    rintro ⟨-, h128⟩
    omega
  constructor
  · simp [EcdsaSecp256k1Suite, hfmts, hins, hsdec, hu]
  · simp [EcdsaSecp256k1Suite, hfmtu, hinu, hudec, hs]

/-- Witness for C6 at the toy provider's point and its two concrete
serializations `c66` and `u130`. -/
theorem ecdsa_normalize_round_trip_witness :
    (EcdsaSecp256k1Suite toyProvider).validateAndNormalizePublicKey c66
        (some PublicKeyFormat.uncompressed) = Except.ok (u130, PublicKeyFormat.uncompressed) ∧
    (EcdsaSecp256k1Suite toyProvider).validateAndNormalizePublicKey u130
        (some PublicKeyFormat.compressed) = Except.ok (c66, PublicKeyFormat.compressed) :=
  ecdsa_normalize_round_trip toyProvider () c66 u130 rfl (by decide) (by decide) rfl
    rfl (by decide) (by decide) rfl

/-- C7: on every successful secp256k1/ECDSA call the returned key is the
point's serialization in the requested output format (`compressed` when no
format is requested), and the output is a function of the decoded point and
the requested format alone — two accepted inputs decoding to the same point
normalize identically, regardless of which accepted input shape they used. -/
theorem ecdsa_output_point_and_format_only {S E : Type} (P : PrimitiveProvider S E)
    (o : Option PublicKeyFormat) :
    (∀ s pk f, (EcdsaSecp256k1Suite P).validateAndNormalizePublicKey s o =
        Except.ok (pk, f) →
      f = o.getD PublicKeyFormat.compressed ∧
        ∃ fmt pt, ecdsaInputFormat s = some fmt ∧
          P.secpPointFromHex (ecdsaPointInputHex s fmt) = Except.ok pt ∧
          pk = P.secpPointToHex pt (decide (f = PublicKeyFormat.compressed))) ∧
    (∀ s₁ s₂ f₁ f₂ pt, ecdsaInputFormat s₁ = some f₁ → ecdsaInputFormat s₂ = some f₂ →
      P.secpPointFromHex (ecdsaPointInputHex s₁ f₁) = Except.ok pt →
      P.secpPointFromHex (ecdsaPointInputHex s₂ f₂) = Except.ok pt →
      (EcdsaSecp256k1Suite P).validateAndNormalizePublicKey s₁ o =
        (EcdsaSecp256k1Suite P).validateAndNormalizePublicKey s₂ o) := by
  constructor
  · intro s pk f h
    cases hf : ecdsaInputFormat s with
    | none => simp [EcdsaSecp256k1Suite, hf] at h
    | some fmt =>
        cases hp : P.secpPointFromHex (ecdsaPointInputHex s fmt) with
        | error e => simp [EcdsaSecp256k1Suite, hf, hp] at h
        | ok pt =>
            simp only [EcdsaSecp256k1Suite, hf, hp, Except.ok.injEq, Prod.mk.injEq] at h
            obtain ⟨hpk, hfmt⟩ := h
            subst hfmt
            exact ⟨rfl, fmt, pt, rfl, hp, hpk.symm⟩
  · intro s₁ s₂ f₁ f₂ pt h1 h2 hp1 hp2
    simp [EcdsaSecp256k1Suite, h1, h2, hp1, hp2]

/-- Witness for C7: the compressed key `c66` and the bare 128-char body
`body128` decode to the same toy point and normalize to the identical result;
with no requested format the returned key is the compressed serialization. -/
theorem ecdsa_output_point_and_format_only_witness :
    (EcdsaSecp256k1Suite toyProvider).validateAndNormalizePublicKey c66 none =
      (EcdsaSecp256k1Suite toyProvider).validateAndNormalizePublicKey body128 none ∧
    (PublicKeyFormat.compressed = (none : Option PublicKeyFormat).getD
        PublicKeyFormat.compressed ∧
      ∃ fmt pt, ecdsaInputFormat c66 = some fmt ∧
        toyProvider.secpPointFromHex (ecdsaPointInputHex c66 fmt) = Except.ok pt ∧
        c66 = toyProvider.secpPointToHex pt
          (decide (PublicKeyFormat.compressed = PublicKeyFormat.compressed))) :=
  ⟨(ecdsa_output_point_and_format_only toyProvider none).2 c66 body128
      PublicKeyFormat.compressed PublicKeyFormat.uncompressed () (by decide) (by decide)
      rfl rfl,
   (ecdsa_output_point_and_format_only toyProvider none).1 c66 c66
      PublicKeyFormat.compressed rfl⟩

/-- C10: requesting output format `schnorr` from the secp256k1/ECDSA suite
does not fail on a valid key: only the exact value `compressed` triggers
compression, so the point is re-serialized uncompressed — 130 hex chars under
the provider's serialization contract — and paired with format tag `schnorr`. -/
theorem ecdsa_schnorr_format_gives_uncompressed {S E : Type} (P : PrimitiveProvider S E)
    (s : String) (fmt : PublicKeyFormat) (pt : S)
    (hf : ecdsaInputFormat s = some fmt)
    (hp : P.secpPointFromHex (ecdsaPointInputHex s fmt) = Except.ok pt)
    (hlen : (P.secpPointToHex pt false).length = 130) :
    (EcdsaSecp256k1Suite P).validateAndNormalizePublicKey s
        (some PublicKeyFormat.schnorr) =
      Except.ok (P.secpPointToHex pt false, PublicKeyFormat.schnorr) ∧
    ∀ r, (EcdsaSecp256k1Suite P).validateAndNormalizePublicKey s
        (some PublicKeyFormat.schnorr) = Except.ok r →
      r.1.length = 130 ∧ r.2 = PublicKeyFormat.schnorr := by
  have heq : (EcdsaSecp256k1Suite P).validateAndNormalizePublicKey s
      (some PublicKeyFormat.schnorr) =
      Except.ok (P.secpPointToHex pt false, PublicKeyFormat.schnorr) := by
    simp [EcdsaSecp256k1Suite, hf, hp]
  refine ⟨heq, ?_⟩
  intro r hr
  rw [heq] at hr
  cases Except.ok.inj hr
  exact ⟨hlen, rfl⟩

/-- Witness for C10 at the valid compressed key `c66` of the toy provider:
the result is the 130-hex-char uncompressed encoding `u130` tagged `schnorr`. -/
theorem ecdsa_schnorr_format_gives_uncompressed_witness :
    (EcdsaSecp256k1Suite toyProvider).validateAndNormalizePublicKey c66
        (some PublicKeyFormat.schnorr) = Except.ok (u130, PublicKeyFormat.schnorr) ∧
    u130.length = 130 :=
  ⟨(ecdsa_schnorr_format_gives_uncompressed toyProvider c66 PublicKeyFormat.compressed ()
      (by decide) rfl (by decide)).1,
   by decide⟩

/-- C2, the leg the ECDSA suite violates: a key of accepted compressed shape
whose point decoding fails makes `validateAndNormalizePublicKey` surface the
provider's own error — the `Point.fromHex` call is not wrapped in a
try/catch — rather than the owned validation-error kind the documentation
promises. Evaluated at the concrete key `02ff…ff` against the toy provider
(the real secp256k1 provider rejects that key too: its x-coordinate exceeds
the field prime). -/
theorem ecdsa_point_decode_failure_not_key_validation :
    ecdsaInputFormat badPointKey = some PublicKeyFormat.compressed ∧
    (EcdsaSecp256k1Suite toyProvider).validateAndNormalizePublicKey badPointKey none =
      Except.error (ThrownError.providerError "bad point") ∧
    ∀ m, (EcdsaSecp256k1Suite toyProvider).validateAndNormalizePublicKey badPointKey none ≠
      Except.error (ThrownError.KeyValidationError m) := by
  have heq : (EcdsaSecp256k1Suite toyProvider).validateAndNormalizePublicKey badPointKey none =
      Except.error (ThrownError.providerError "bad point") := rfl
  refine ⟨by decide, heq, ?_⟩
  intro m hm
  rw [heq] at hm
  simp at hm

end CryptoSuiteKit
